import Mathlib

/-!
# Verification of the postfix_install repository's update-and-notify workflow

Shallow embedding of `src/postfix_install.py` (version 3.7) and
`src/postfix_purge.py` (version 1.0).

External effects are abstracted by oracles:
* `exec` gives the outcome of `subprocess.run(command, check=True, ...)`
  for a command line (success with captured stdout/stderr, a
  `CalledProcessError` for a non-zero exit status, or a
  `FileNotFoundError` for a missing executable);
* `smtp` gives the outcome of the n-th SMTP session opened by the
  process (success, an `smtplib.SMTPException`, or some other exception
  such as a socket-level `OSError` for a refused connection -- the
  latter is not an `SMTPException` and so is not caught by
  `except smtplib.SMTPException`).

Each embedded function returns the Python function's result as an
`Except Exc _` (`.error` = an exception propagating out of the
function) together with the final trace state: side effects (log
records, `send_email` invocations, `subprocess.run` invocations) are
world effects that persist even when an exception unwinds, so state is
threaded through both the `.ok` and the `.error` outcome.
-/

namespace PostfixInstall

/-- Outcome of one `subprocess.run(command, check=True, capture, text=True)`. -/
inductive ExecResult where
  | success (stdout stderr : String)
  | calledProcessError (returncode : Int) (stderr : String)
  | fileNotFound
  deriving DecidableEq, Repr

/-- Outcome of one SMTP session (`smtplib.SMTP(...)` block): success, an
`smtplib.SMTPException` (protocol-level failure, e.g. authentication
rejected or server disconnected), or an exception that is *not* an
`SMTPException` (e.g. `ConnectionRefusedError`/`OSError` when the TCP
connection cannot be established). -/
inductive SmtpResult where
  | ok
  | smtpException (msg : String)
  | otherError (msg : String)
  deriving DecidableEq, Repr

/-- A Python exception propagating between the embedded functions. -/
inductive Exc where
  | fileNotFound (command : List String)
  | smtpException (msg : String)
  | otherError (msg : String)
  deriving DecidableEq, Repr

/-- Observable events of a run: log records at their severities, each
`send_email` invocation (with its subject and body), and each
`subprocess.run` invocation (the attempted command line). -/
inductive Event where
  | logInfo (msg : String)
  | logWarning (msg : String)
  | logError (msg : String)
  | logCritical (msg : String)
  | sendEmail (subject body : String)
  | commandRun (command : List String)
  deriving DecidableEq, Repr

/-- The process environment the script runs against. -/
structure Env where
  exec : List String → ExecResult
  smtp : Nat → SmtpResult
  rebootRequired : Bool
  hostName : String

/-- Mutable world state threaded through the run. -/
structure St where
  events : List Event
  smtpCalls : Nat
  deriving DecidableEq, Repr

def St.init : St := ⟨[], 0⟩

def St.log (s : St) (e : Event) : St := { s with events := s.events ++ [e] }

/-- `' '.join(command)`. -/
def joinSpace (command : List String) : String := String.intercalate " " command

/-- Python `needle in haystack` on strings (substring containment). -/
def strContains (haystack needle : String) : Bool :=
  decide (needle.toList <:+: haystack.toList)

/-- Python `str.strip()`: drop leading and trailing whitespace. `String.trim`
is deliberately not used: its `Substring` auxiliaries are defined by
well-founded recursion and do not reduce inside the kernel, while this
list-based equivalent evaluates on concrete inputs. -/
def strip (s : String) : String :=
  String.mk (((s.data.dropWhile Char.isWhitespace).reverse.dropWhile Char.isWhitespace).reverse)

/-- Python truthiness of an `Optional[str]` (`None` and `""` are falsy). -/
def truthy : Option String → Bool
  | none => false
  | some s => s ≠ ""

/-- `str(e)` for the exceptions we model. -/
def Exc.message : Exc → String
  | .fileNotFound command => "[Errno 2] No such file or directory: " ++ command.headD ""
  | .smtpException m => m
  | .otherError m => m

/-- Email configuration, lines 67-70: the four module-level globals. -/
structure Config where
  fromEmail : String
  toEmail : String
  smtpServer : String
  emailPassword : String
  deriving DecidableEq, Repr

/-- `os.getenv(key, dflt)` over an environment mapping. -/
def getenv (environ : String → Option String) (key dflt : String) : String :=
  (environ key).getD dflt

/-- Lines 67-70: the module-level configuration load. Every key falls back
to a default when absent (`default@domain.com`, `localhost`, `""`). -/
def loadConfig (environ : String → Option String) : Config :=
  { fromEmail := getenv environ "FROM_EMAIL" "default@domain.com"
    toEmail := getenv environ "TO_EMAIL" "default@domain.com"
    smtpServer := getenv environ "SMTP_SERVER" "localhost"
    emailPassword := getenv environ "EMAIL_PASSWORD" "" }

/-- The full ambient environment: the loaded configuration plus the oracles. -/
structure FullEnv extends Env where
  cfg : Config

/-- Subject of the summary notification, line 122. -/
def summarySubj (h : String) : String := "Update Notification from " ++ h

/-- Body of the summary notification, line 123. -/
def summaryBody (h : String) (performed : List String) : String :=
  "The following updates were performed on " ++ h ++ ":\n\n"
    ++ String.intercalate "\n" performed

/-- Subject of the distribution-upgrade notification, line 130. -/
def distSubj (h : String) : String := "Distribution Upgrade Available on " ++ h

/-- Body of the distribution-upgrade notification, line 131. -/
def distBody (h output : String) : String :=
  "A distribution upgrade is available on " ++ h
    ++ ". Manual intervention is required.\n\nOutput:\n" ++ output

/-- Subject of the rebooting-now notification, line 140. -/
def rebootSubj (h : String) : String := "Reboot Required for " ++ h

/-- Body of the rebooting-now notification, line 141. -/
def rebootBody (h : String) : String :=
  "A reboot is required on " ++ h ++ " after recent updates. Rebooting now."

/-- Subject of the reboot-failure escalation notification, line 149. -/
def rebootFailedSubj (h : String) : String := "Reboot Failed on " ++ h

/-- Body of the reboot-failure escalation notification, line 150. -/
def rebootFailedBody (h msg : String) : String :=
  "A reboot was required on " ++ h
    ++ ", but it failed. Manual intervention is required.\n\nError: " ++ msg

/-- Subject of the no-reboot-needed notification, line 155. -/
def noRebootSubj (h : String) : String := "Update Complete on " ++ h

/-- Body of the no-reboot-needed notification, line 156. -/
def noRebootBody (h : String) : String :=
  "The update process is complete on " ++ h ++ ". No reboot was required."

/-- Subject of the top-level escalation notification, line 186. -/
def errorSubj (h : String) : String := "Error in Update Script on " ++ h

/-- Body of the top-level escalation notification, line 187. -/
def errorBody (h msg : String) : String :=
  "An error occurred during the update process on " ++ h
    ++ ". Check the logs for details.\n\nError: " ++ msg

/-- `send_email(subject, body)`, lines 75-89. The `sendEmail` event records
the invocation; the SMTP session outcome is the next value of the `smtp`
oracle. `except smtplib.SMTPException` catches only `smtpException`
outcomes (logged at error severity and swallowed); any other exception
propagates. -/
def send_email (env : FullEnv) (subject body : String) (s : St) :
    Except Exc Unit × St :=
  let s := s.log (.sendEmail subject body)
  let r := env.smtp s.smtpCalls
  let s := { s with smtpCalls := s.smtpCalls + 1 }
  match r with
  | .ok => (.ok (), s.log (.logInfo ("Email notification sent: " ++ subject)))
  | .smtpException m => (.ok (), s.log (.logError ("Failed to send email: " ++ m)))
  | .otherError m => (.error (.otherError m), s)

/-- `run_command(command)`, lines 91-101. The `commandRun` event records the
`subprocess.run` invocation. A zero exit status returns the stripped
stdout; `except subprocess.CalledProcessError` returns `None` after
logging at error severity; a `FileNotFoundError` (missing executable) is
NOT caught and propagates. -/
def run_command (env : FullEnv) (command : List String) (s : St) :
    Except Exc (Option String) × St :=
  let s := s.log (.commandRun command)
  match env.exec command with
  | .success out err =>
      let s := s.log (.logInfo ("Command " ++ joinSpace command ++ " output: " ++ (strip out)))
      let s := if err ≠ "" then
          s.log (.logWarning ("Command " ++ joinSpace command ++ " error: " ++ (strip err)))
        else s
      (.ok (some (strip out)), s)
  | .calledProcessError rc err =>
      (.ok none,
       s.log (.logError ("Command " ++ joinSpace command ++ " failed with return code "
                          ++ toString rc ++ ". Error: " ++ (strip err))))
  | .fileNotFound => (.error (.fileNotFound command), s)

/-- The fixed four-command maintenance sequence, lines 105-110. -/
def updateCommands : List (List String) :=
  [["sudo", "apt-get", "-y", "update"],
   ["sudo", "apt-get", "-y", "upgrade"],
   ["sudo", "apt-get", "-y", "autoremove"],
   ["sudo", "apt-get", "-y", "autoclean"]]

/-- The `for command in commands` loop of `auto_update`, lines 112-118,
accumulating `updates_performed`. -/
def updateLoop (env : FullEnv) :
    List (List String) → List String → St → Except Exc (List String) × St
  | [], acc, s => (.ok acc, s)
  | c :: rest, acc, s =>
      match run_command env c s with
      | (.error e, s) => (.error e, s)
      | (.ok (some _), s) => updateLoop env rest (acc ++ [joinSpace c]) s
      | (.ok none, s) =>
          updateLoop env rest acc
            (s.log (.logError ("Failed to run " ++ joinSpace c ++ " on " ++ env.hostName)))

/-- The fixed marker string of line 128. -/
def upgradeMarker : String := "The following packages will be upgraded:"

/-- The simulated distribution-upgrade command of line 127. -/
def distUpgradeCmd : List String := ["sudo", "apt-get", "-s", "dist-upgrade"]

/-- Lines 126-134 of `auto_update`: run the simulated dist-upgrade and
notify iff the (truthy) output contains the marker. -/
def dist_upgrade_check (env : FullEnv) (s : St) : Except Exc Unit × St :=
  match run_command env distUpgradeCmd s with
  | (.error e, s) => (.error e, s)
  | (.ok out, s) =>
      if truthy out && strContains (out.getD "") upgradeMarker then
        send_email env (distSubj env.hostName) (distBody env.hostName (out.getD "")) s
      else
        (.ok (), s.log (.logInfo "No distribution upgrades available."))

/-- `auto_update()`, lines 103-134: the command loop, the conditional
summary notification, then the dist-upgrade check. -/
def auto_update (env : FullEnv) (s : St) : Except Exc Unit × St :=
  match updateLoop env updateCommands [] s with
  | (.error e, s) => (.error e, s)
  | (.ok performed, s) =>
      let step :=
        if performed ≠ [] then
          send_email env (summarySubj env.hostName) (summaryBody env.hostName performed) s
        else (.ok (), s)
      match step with
      | (.error e, s) => (.error e, s)
      | (.ok _, s) => dist_upgrade_check env s

/-- `auto_restart()`, lines 136-157. The `try` of line 144 wraps only the
`run_command(['sudo', 'reboot'])` call; its `except Exception` branch
logs at critical severity and sends the escalation notification. -/
def auto_restart (env : FullEnv) (s : St) : Except Exc Unit × St :=
  if env.rebootRequired then
    match send_email env (rebootSubj env.hostName) (rebootBody env.hostName) s with
    | (.error e, s) => (.error e, s)
    | (.ok _, s) =>
        let s := s.log (.logWarning ("**** REBOOT REQUIRED for host: " ++ env.hostName
                                      ++ ". Rebooting now ****"))
        match run_command env ["sudo", "reboot"] s with
        | (.ok _, s) => (.ok (), s)
        | (.error e, s) =>
            let s := s.log (.logCritical ("Failed to reboot: " ++ e.message))
            send_email env (rebootFailedSubj env.hostName)
              (rebootFailedBody env.hostName e.message) s
  else
    let s := s.log (.logInfo ("Update complete on " ++ env.hostName
                               ++ ". No reboot required."))
    send_email env (noRebootSubj env.hostName) (noRebootBody env.hostName) s

/-- `test_smtp_connection()`, lines 159-167: a no-op SMTP session; any
failure is logged at error severity and re-raised. -/
def test_smtp_connection (env : FullEnv) (s : St) : Except Exc Unit × St :=
  let r := env.smtp s.smtpCalls
  let s := { s with smtpCalls := s.smtpCalls + 1 }
  match r with
  | .ok =>
      (.ok (), s.log (.logInfo ("SMTP server " ++ env.cfg.smtpServer ++ " is reachable.")))
  | .smtpException m =>
      (.error (.smtpException m),
       s.log (.logError ("SMTP server " ++ env.cfg.smtpServer ++ " is unreachable: " ++ m)))
  | .otherError m =>
      (.error (.otherError m),
       s.log (.logError ("SMTP server " ++ env.cfg.smtpServer ++ " is unreachable: " ++ m)))

/-- `send_test_email()`, lines 169-175: its `except Exception` catches any
exception from `run_command` (a `None` result is not an exception, so the
success message is logged even then). -/
def send_test_email (env : FullEnv) (s : St) : Except Exc Unit × St :=
  match run_command env ["echo", "This is a test email from Postfix.", "|", "mail",
      "-s", "Postfix Test Email", env.cfg.toEmail] s with
  | (.ok _, s) => (.ok (), s.log (.logInfo "Test email sent successfully."))
  | (.error e, s) =>
      (.ok (), s.log (.logError ("Failed to send test email: " ++ e.message)))

/-- The `try` body of the `__main__` block, lines 178-182. -/
def mainBody (env : FullEnv) (s : St) : Except Exc Unit × St :=
  match test_smtp_connection env s with
  | (.error e, s) => (.error e, s)
  | (.ok _, s) =>
      match auto_update env s with
      | (.error e, s) => (.error e, s)
      | (.ok _, s) =>
          match auto_restart env s with
          | (.error e, s) => (.error e, s)
          | (.ok _, s) => send_test_email env s

/-- The `except Exception` handler of the `__main__` block, lines 183-188:
log at critical severity, send a best-effort escalation notification, and
fall off the end of the script. The script never re-raises or calls
`sys.exit`, so the process exit status is 0 unless the escalation send
itself raises (then Python dies with a traceback, status 1). -/
def topHandler (env : FullEnv) (e : Exc) (s : St) : Nat × St :=
  let s := s.log (.logCritical ("Unhandled exception: " ++ e.message))
  match send_email env (errorSubj env.hostName) (errorBody env.hostName e.message) s with
  | (.ok _, s) => (0, s)
  | (.error _, s) => (1, s)

/-- The whole `__main__` block, lines 177-188, returning the process exit
status and the final event trace. -/
def main (env : FullEnv) (s : St) : Nat × St :=
  match mainBody env s with
  | (.ok _, s) => (0, s)
  | (.error e, s) => topHandler env e s

/-- Number of events satisfying `p` in a trace. -/
def countE (p : Event → Bool) (evs : List Event) : Nat := (evs.filter p).length

/-- Whether an event is a `send_email` invocation. -/
def isSend : Event → Bool
  | .sendEmail _ _ => true
  | _ => false

/-- Whether an event is a `send_email` invocation with the given subject. -/
def isSendSubj (subject : String) : Event → Bool
  | .sendEmail subj _ => subj == subject
  | _ => false

/-- Whether an event is a `send_email` invocation with the given subject
and body. -/
def isSendSB (subject body : String) : Event → Bool
  | .sendEmail subj b => subj == subject && b == body
  | _ => false

/-- Whether an event is a `subprocess.run` invocation. -/
def isRun : Event → Bool
  | .commandRun _ => true
  | _ => false

/-- Whether an event is a `subprocess.run` invocation of the given command. -/
def isRunCmd (command : List String) : Event → Bool
  | .commandRun c => c == command
  | _ => false

/-- Whether an event is a critical-severity log record. -/
def isCritical : Event → Bool
  | .logCritical _ => true
  | _ => false

/-- Number of `send_email` invocations with the given subject in a trace. -/
def countSend (subject : String) (evs : List Event) : Nat :=
  countE (isSendSubj subject) evs

/-- Number of `send_email` invocations with the given subject and body. -/
def countSendSB (subject body : String) (evs : List Event) : Nat :=
  countE (isSendSB subject body) evs

/-- Number of `subprocess.run` invocations of the given command line. -/
def countRun (command : List String) (evs : List Event) : Nat :=
  countE (isRunCmd command) evs

/-- Whether an `ExecResult` is a zero-exit success. -/
def ExecResult.isSuccess : ExecResult → Bool
  | .success _ _ => true
  | _ => false

/-- The spec's characterization of the performed-list: the joined labels of
exactly the commands of the fixed sequence whose execution succeeded, in
the original order. -/
def specPerformed (env : FullEnv) : List String :=
  (updateCommands.filter fun c => (env.exec c).isSuccess).map joinSpace

/-- A configuration loaded from an environment with every key absent. -/
def cfgAllAbsent : Config := loadConfig fun _ => none

/-- Baseline concrete environment: every command exits 0 with empty output,
every SMTP session succeeds, no reboot marker. -/
def envAllOk : FullEnv :=
  { exec := fun _ => .success "" ""
    smtp := fun _ => .ok
    rebootRequired := false
    hostName := "host1"
    cfg := cfgAllAbsent }

/-- Reboot marker present and `sudo reboot` exits with status 1. -/
def envRebootFail : FullEnv :=
  { envAllOk with
    rebootRequired := true
    exec := fun c =>
      if c = ["sudo", "reboot"] then .calledProcessError 1 "reboot failed" else .success "" "" }

/-- Reboot marker present and the reboot succeeds. -/
def envRebootOk : FullEnv := { envAllOk with rebootRequired := true }

/-- Every executable is missing (`FileNotFoundError` on each command). -/
def envMissingExec : FullEnv := { envAllOk with exec := fun _ => .fileNotFound }

/-- Reboot marker present; every SMTP session fails with a socket-level
error that is not an `smtplib.SMTPException`. -/
def envConnRefused : FullEnv :=
  { envAllOk with rebootRequired := true, smtp := fun _ => .otherError "connection refused" }

/-- Every SMTP session fails with an `smtplib.SMTPException`. -/
def envSmtpDown : FullEnv :=
  { envAllOk with smtp := fun _ => .smtpException "server down" }

/-- Reboot marker present and every SMTP session fails with an
`smtplib.SMTPException`. -/
def envSmtpDownReboot : FullEnv := { envSmtpDown with rebootRequired := true }

/-- The simulated dist-upgrade reports upgradable packages; all else exits 0. -/
def envDistUpgrade : FullEnv :=
  { envAllOk with
    exec := fun c =>
      if c = distUpgradeCmd then
        .success " The following packages will be upgraded:\n  pkg" ""
      else .success "" "" }

/-- The second maintenance command (`apt-get -y upgrade`) exits non-zero;
all else exits 0. -/
def envUpgradeFails : FullEnv :=
  { envAllOk with
    exec := fun c =>
      if c = ["sudo", "apt-get", "-y", "upgrade"] then .calledProcessError 100 "broken"
      else .success "" "" }

end PostfixInstall

namespace PostfixPurge

open PostfixInstall (ExecResult)

/-- The purge command sequence of `purge_postfix`, lines 42-51 of
`src/postfix_purge.py`. -/
def purgeCommands : List (List String) :=
  [["apt-get", "remove", "--purge", "postfix", "-y"],
   ["apt-get", "autoremove", "-y"],
   ["apt-get", "clean"],
   ["rm", "-rf", "/etc/postfix"],
   ["rm", "-f", "/etc/aliases.db"],
   ["rm", "-f", "/etc/postfix.env"],
   ["rm", "-f", "/var/log/mail.*"],
   ["rm", "-f", "/etc/postfix/env_variables.env"]]

/-- `run_command(command, sudo)` of `src/postfix_purge.py`, lines 11-37
(the `sudo` parameter is renamed `sudoFlag` here): with `sudo=True` the
command gets `'sudo'` prepended; a `CalledProcessError` (non-zero exit)
or a `FileNotFoundError` each end in `exit(1)` (modelled as `.error 1`,
terminating the process with exit status 1). The trace records each
attempted command line. -/
def run_command (exec : List String → ExecResult) (command : List String)
    (sudoFlag : Bool) (tr : List (List String)) : Except Nat Unit × List (List String) :=
  let command := if sudoFlag then "sudo" :: command else command
  let tr := tr ++ [command]
  match exec command with
  | .success _ _ => (.ok (), tr)
  | .calledProcessError _ _ => (.error 1, tr)
  | .fileNotFound => (.error 1, tr)

/-- The `for command in commands` loop of `purge_postfix`, lines 52-53:
each command runs with `sudo=True`; `exit(1)` inside `run_command`
terminates the whole process, so no later command is attempted. -/
def purgeLoop (exec : List String → ExecResult) :
    List (List String) → List (List String) → Except Nat Unit × List (List String)
  | [], tr => (.ok (), tr)
  | c :: rest, tr =>
      match run_command exec c true tr with
      | (.ok _, tr) => purgeLoop exec rest tr
      | (.error n, tr) => (.error n, tr)

/-- `purge_postfix()`, lines 39-54, over the fixed command sequence. -/
def purge_postfix (exec : List String → ExecResult) :
    Except Nat Unit × List (List String) :=
  purgeLoop exec purgeCommands []

/-- Purge oracle: `sudo rm -rf /etc/postfix` (the fourth command) exits
non-zero; everything else succeeds. -/
def execPurgeFail : List String → ExecResult := fun c =>
  if c = ["sudo", "rm", "-rf", "/etc/postfix"] then .calledProcessError 1 "denied"
  else .success "" ""

end PostfixPurge

/-! ## Counting and string lemmas -/

namespace PostfixInstall

theorem countE_nil (p : Event → Bool) : countE p [] = 0 := rfl

theorem countE_cons (p : Event → Bool) (a : Event) (l : List Event) :
    countE p (a :: l) = (if p a then 1 else 0) + countE p l := by
  by_cases h : p a <;> simp [countE, List.filter_cons, h, Nat.add_comm]

theorem countE_append (p : Event → Bool) (l1 l2 : List Event) :
    countE p (l1 ++ l2) = countE p l1 + countE p l2 := by
  simp [countE, List.filter_append]

theorem countE_eq_zero (p : Event → Bool) (l : List Event)
    (h : ∀ a ∈ l, p a = false) : countE p l = 0 := by
  simp only [countE, List.length_eq_zero, List.filter_eq_nil_iff]
  intro a ha
  simp [h a ha]

theorem append_ne_append {a b : String} (h : a.length ≠ b.length) (c : String) :
    a ++ c ≠ b ++ c := by
  intro hc
  apply h
  have h2 := congrArg String.length hc
  rw [String.length_append, String.length_append] at h2
  omega

end PostfixInstall

/-! ## Normal forms of the leaf operations -/

namespace PostfixInstall

theorem send_email_eq (env : FullEnv) (subj body : String) (s : St) :
    send_email env subj body s =
      match env.smtp s.smtpCalls with
      | .ok =>
          (Except.ok (),
           ⟨s.events ++ [.sendEmail subj body,
                         .logInfo ("Email notification sent: " ++ subj)],
            s.smtpCalls + 1⟩)
      | .smtpException m =>
          (Except.ok (),
           ⟨s.events ++ [.sendEmail subj body,
                         .logError ("Failed to send email: " ++ m)],
            s.smtpCalls + 1⟩)
      | .otherError m =>
          (Except.error (.otherError m),
           ⟨s.events ++ [.sendEmail subj body], s.smtpCalls + 1⟩) := by
  cases h : env.smtp s.smtpCalls <;> simp [send_email, St.log, h]

theorem run_command_eq (env : FullEnv) (c : List String) (s : St) :
    run_command env c s =
      match env.exec c with
      | .success out err =>
          (Except.ok (some (strip out)),
           ⟨s.events ++ [.commandRun c,
                         .logInfo ("Command " ++ joinSpace c ++ " output: " ++ (strip out))]
                     ++ (if err ≠ "" then
                           [.logWarning ("Command " ++ joinSpace c ++ " error: " ++ (strip err))]
                         else []),
            s.smtpCalls⟩)
      | .calledProcessError rc err =>
          (Except.ok none,
           ⟨s.events ++ [.commandRun c,
                         .logError ("Command " ++ joinSpace c ++ " failed with return code "
                                     ++ toString rc ++ ". Error: " ++ (strip err))],
            s.smtpCalls⟩)
      | .fileNotFound =>
          (Except.error (.fileNotFound c), ⟨s.events ++ [.commandRun c], s.smtpCalls⟩) := by
  cases h : env.exec c with
  | success out err => by_cases herr : err = "" <;> simp [run_command, St.log, h, herr]
  | calledProcessError rc err => simp [run_command, St.log, h]
  | fileNotFound => simp [run_command, St.log, h]

end PostfixInstall

namespace PostfixInstall

theorem run_command_fst (env : FullEnv) (c : List String) (s : St) :
    (run_command env c s).1 =
      match env.exec c with
      | .success out _ => Except.ok (some (strip out))
      | .calledProcessError _ _ => Except.ok none
      | .fileNotFound => Except.error (.fileNotFound c) := by
  rw [run_command_eq]
  cases h : env.exec c <;> simp

theorem run_command_trace (env : FullEnv) (c : List String) (s : St) :
    ∃ tl, (run_command env c s).2 = ⟨s.events ++ Event.commandRun c :: tl, s.smtpCalls⟩
      ∧ ∀ e ∈ tl, isSend e = false ∧ isCritical e = false ∧ isRun e = false := by
  rw [run_command_eq]
  cases h : env.exec c with
  | success out err =>
      by_cases herr : err = ""
      · refine ⟨[Event.logInfo ("Command " ++ joinSpace c ++ " output: " ++ (strip out))],
          by simp [herr], ?_⟩
        intro e he
        simp only [List.mem_singleton] at he
        subst he
        simp [isSend, isCritical, isRun]
      · refine ⟨[Event.logInfo ("Command " ++ joinSpace c ++ " output: " ++ (strip out)),
                 Event.logWarning ("Command " ++ joinSpace c ++ " error: " ++ (strip err))],
          by simp [herr], ?_⟩
        intro e he
        simp only [List.mem_cons, List.mem_singleton, List.not_mem_nil, or_false] at he
        rcases he with rfl | rfl <;> simp [isSend, isCritical, isRun]
  | calledProcessError rc err =>
      refine ⟨[Event.logError ("Command " ++ joinSpace c ++ " failed with return code "
                 ++ toString rc ++ ". Error: " ++ (strip err))], by simp, ?_⟩
      intro e he
      simp only [List.mem_singleton] at he
      subst he
      simp [isSend, isCritical, isRun]
  | fileNotFound =>
      exact ⟨[], by simp, by intro e he; simp at he⟩

theorem send_email_trace (env : FullEnv) (subj body : String) (s : St) :
    ∃ tl, (send_email env subj body s).2
        = ⟨s.events ++ Event.sendEmail subj body :: tl, s.smtpCalls + 1⟩
      ∧ ∀ e ∈ tl, isSend e = false ∧ isCritical e = false ∧ isRun e = false := by
  rw [send_email_eq]
  cases h : env.smtp s.smtpCalls with
  | ok =>
      refine ⟨[Event.logInfo ("Email notification sent: " ++ subj)], by simp, ?_⟩
      intro e he
      simp only [List.mem_singleton] at he
      subst he
      simp [isSend, isCritical, isRun]
  | smtpException m =>
      refine ⟨[Event.logError ("Failed to send email: " ++ m)], by simp, ?_⟩
      intro e he
      simp only [List.mem_singleton] at he
      subst he
      simp [isSend, isCritical, isRun]
  | otherError m =>
      exact ⟨[], by simp, by intro e he; simp at he⟩

theorem isSendSubj_false {e : Event} (subj : String) (h : isSend e = false) :
    isSendSubj subj e = false := by
  cases e <;> simp_all [isSend, isSendSubj]

theorem isSendSB_false {e : Event} (subj body : String) (h : isSend e = false) :
    isSendSB subj body e = false := by
  cases e <;> simp_all [isSend, isSendSB]

theorem isRunCmd_false {e : Event} (c : List String) (h : isRun e = false) :
    isRunCmd c e = false := by
  cases e <;> simp_all [isRun, isRunCmd]

theorem send_email_fst (env : FullEnv) (subj body : String) (s : St)
    (h : ∀ m, env.smtp s.smtpCalls ≠ SmtpResult.otherError m) :
    (send_email env subj body s).1 = Except.ok () := by
  rw [send_email_eq]
  cases hh : env.smtp s.smtpCalls with
  | ok => rfl
  | smtpException m => rfl
  | otherError m => exact absurd hh (h m)

end PostfixInstall

namespace PostfixInstall

theorem updateLoop_spec (env : FullEnv) (cs : List (List String)) :
    ∀ (acc : List String) (s : St),
      (∀ c ∈ cs, env.exec c ≠ ExecResult.fileNotFound) →
      ∃ tl, updateLoop env cs acc s
          = (Except.ok (acc ++ (cs.filter fun c => (env.exec c).isSuccess).map joinSpace),
             ⟨s.events ++ tl, s.smtpCalls⟩)
        ∧ ∀ e ∈ tl, isSend e = false ∧ isCritical e = false := by
  induction cs with
  | nil => intro acc s _; exact ⟨[], by simp [updateLoop], by intro e he; simp at he⟩
  | cons c rest ih =>
      intro acc s h
      have hrest : ∀ x ∈ rest, env.exec x ≠ ExecResult.fileNotFound :=
        fun x hx => h x (List.mem_cons_of_mem _ hx)
      obtain ⟨A, hA, hApt⟩ := run_command_trace env c s
      have hfst := run_command_fst env c s
      have hsplit : run_command env c s = ((run_command env c s).1, (run_command env c s).2) :=
        rfl
      cases hcc : env.exec c with
      | success out err =>
          rw [hcc] at hfst
          obtain ⟨tl, heq, hpt⟩ := ih (acc ++ [joinSpace c])
            ⟨s.events ++ Event.commandRun c :: A, s.smtpCalls⟩ hrest
          refine ⟨Event.commandRun c :: (A ++ tl), ?_, ?_⟩
          · have key : updateLoop env (c :: rest) acc s
                = updateLoop env rest (acc ++ [joinSpace c])
                    ⟨s.events ++ Event.commandRun c :: A, s.smtpCalls⟩ := by
              conv_lhs => rw [updateLoop, hsplit, hfst, hA]
            rw [key, heq]
            simp [List.filter_cons, hcc, ExecResult.isSuccess, List.append_assoc]
          · intro e he
            simp only [List.mem_cons, List.mem_append] at he
            rcases he with rfl | he | he
            · simp [isSend, isCritical]
            · exact ⟨(hApt e he).1, (hApt e he).2.1⟩
            · exact hpt e he
      | calledProcessError rc err =>
          rw [hcc] at hfst
          obtain ⟨tl, heq, hpt⟩ := ih acc
            ⟨(s.events ++ Event.commandRun c :: A)
               ++ [Event.logError ("Failed to run " ++ joinSpace c ++ " on " ++ env.hostName)],
             s.smtpCalls⟩ hrest
          refine ⟨Event.commandRun c
              :: (A ++ [Event.logError ("Failed to run " ++ joinSpace c ++ " on " ++ env.hostName)]
                    ++ tl), ?_, ?_⟩
          · have key : updateLoop env (c :: rest) acc s
                = updateLoop env rest acc
                    ⟨(s.events ++ Event.commandRun c :: A)
                       ++ [Event.logError ("Failed to run " ++ joinSpace c ++ " on "
                            ++ env.hostName)],
                     s.smtpCalls⟩ := by
              conv_lhs => rw [updateLoop, hsplit, hfst, hA]
              all_goals exact rfl
            rw [key, heq]
            simp [List.filter_cons, hcc, ExecResult.isSuccess, List.append_assoc]
          · intro e he
            simp only [List.mem_cons, List.mem_append, List.mem_singleton,
              List.not_mem_nil, or_false] at he
            rcases he with rfl | (he | rfl) | he
            · simp [isSend, isCritical]
            · exact ⟨(hApt e he).1, (hApt e he).2.1⟩
            · simp [isSend, isCritical]
            · exact hpt e he
      | fileNotFound => exact absurd hcc (h c (by simp))

end PostfixInstall

namespace PostfixInstall

theorem p_false_of_quiet {p : Event → Bool}
    (hinfo : ∀ m, p (.logInfo m) = false) (hwarn : ∀ m, p (.logWarning m) = false)
    (herr : ∀ m, p (.logError m) = false) {e : Event}
    (hq : isSend e = false ∧ isCritical e = false ∧ isRun e = false) : p e = false := by
  cases e with
  | logInfo m => exact hinfo m
  | logWarning m => exact hwarn m
  | logError m => exact herr m
  | logCritical m => exact absurd hq.2.1 (by simp [isCritical])
  | sendEmail a b => exact absurd hq.1 (by simp [isSend])
  | commandRun c => exact absurd hq.2.2 (by simp [isRun])

theorem p_false_of_nonsend {p : Event → Bool}
    (hinfo : ∀ m, p (.logInfo m) = false) (hwarn : ∀ m, p (.logWarning m) = false)
    (herr : ∀ m, p (.logError m) = false) (hrun : ∀ c, p (.commandRun c) = false)
    {e : Event} (hq : isSend e = false ∧ isCritical e = false) : p e = false := by
  cases e with
  | logInfo m => exact hinfo m
  | logWarning m => exact hwarn m
  | logError m => exact herr m
  | logCritical m => exact absurd hq.2 (by simp [isCritical])
  | sendEmail a b => exact absurd hq.1 (by simp [isSend])
  | commandRun c => exact hrun c

theorem ne_empty_of_contains {x : String} (h : strContains x upgradeMarker = true) :
    x ≠ "" := by
  intro he
  subst he
  exact absurd h (by decide)

theorem marker_cond (x : String) :
    (truthy (some x) && strContains ((some x).getD "") upgradeMarker)
      = strContains x upgradeMarker := by
  cases hm : strContains x upgradeMarker with
  | true => simp [truthy, Option.getD, ne_empty_of_contains hm, hm]
  | false => simp [Option.getD, hm]

end PostfixInstall

namespace PostfixInstall

theorem dist_check_countE (env : FullEnv) (s : St) (p : Event → Bool)
    (hinfo : ∀ m, p (.logInfo m) = false)
    (hwarn : ∀ m, p (.logWarning m) = false)
    (herr : ∀ m, p (.logError m) = false)
    (hrun : ∀ c, p (.commandRun c) = false) :
    countE p (dist_upgrade_check env s).2.events
      = countE p s.events
        + (match env.exec distUpgradeCmd with
           | .success out _ =>
               if strContains (strip out) upgradeMarker then
                 (if p (.sendEmail (distSubj env.hostName)
                          (distBody env.hostName (strip out))) then 1 else 0)
               else 0
           | _ => 0) := by
  obtain ⟨A, hA, hApt⟩ := run_command_trace env distUpgradeCmd s
  have hAz : countE p A = 0 :=
    countE_eq_zero _ _ fun e he => p_false_of_quiet hinfo hwarn herr (hApt e he)
  have hfst := run_command_fst env distUpgradeCmd s
  have hsplit : run_command env distUpgradeCmd s
      = ((run_command env distUpgradeCmd s).1, (run_command env distUpgradeCmd s).2) := rfl
  unfold dist_upgrade_check
  rw [hsplit, hfst, hA]
  cases hcc : env.exec distUpgradeCmd with
  | success out err =>
      simp only [marker_cond]
      cases hm : strContains (strip out) upgradeMarker with
      | true =>
          simp only [if_true]
          obtain ⟨B, hB, hBpt⟩ := send_email_trace env (distSubj env.hostName)
            (distBody env.hostName ((some (strip out)).getD ""))
            ⟨s.events ++ Event.commandRun distUpgradeCmd :: A, s.smtpCalls⟩
          rw [hB]
          have hBz : countE p B = 0 :=
            countE_eq_zero _ _ fun e he => p_false_of_quiet hinfo hwarn herr (hBpt e he)
          simp [countE_append, countE_cons, hAz, hBz, hrun, Option.getD]
      | false =>
          simp [countE_append, countE_cons, countE_nil, hAz, hrun, hinfo, St.log]
  | calledProcessError rc err =>
      simp [countE_append, countE_cons, countE_nil, hAz, hrun, hinfo, St.log, truthy]
  | fileNotFound =>
      simp [countE_append, countE_cons, hAz, hrun]

theorem dist_check_no_marker_log (env : FullEnv) (s : St) (out err : String)
    (hcc : env.exec distUpgradeCmd = ExecResult.success out err)
    (hm : strContains (strip out) upgradeMarker = false) :
    Event.logInfo "No distribution upgrades available."
      ∈ (dist_upgrade_check env s).2.events := by
  obtain ⟨A, hA, _⟩ := run_command_trace env distUpgradeCmd s
  have hfst := run_command_fst env distUpgradeCmd s
  have hsplit : run_command env distUpgradeCmd s
      = ((run_command env distUpgradeCmd s).1, (run_command env distUpgradeCmd s).2) := rfl
  rw [hcc] at hfst
  unfold dist_upgrade_check
  rw [hsplit, hfst, hA]
  simp [marker_cond, hm, St.log]

end PostfixInstall

namespace PostfixInstall

theorem auto_update_countE (env : FullEnv) (s : St) (p : Event → Bool)
    (hfnf : ∀ c ∈ updateCommands, env.exec c ≠ ExecResult.fileNotFound)
    (hinfo : ∀ m, p (.logInfo m) = false)
    (hwarn : ∀ m, p (.logWarning m) = false)
    (herr : ∀ m, p (.logError m) = false)
    (hrun : ∀ c, p (.commandRun c) = false)
    (hdist : ∀ b, p (.sendEmail (distSubj env.hostName) b) = false) :
    countE p (auto_update env s).2.events
      = countE p s.events
        + (if (updateCommands.filter fun c => (env.exec c).isSuccess).map joinSpace = [] then 0
           else if p (.sendEmail (summarySubj env.hostName)
                    (summaryBody env.hostName
                      ((updateCommands.filter fun c => (env.exec c).isSuccess).map joinSpace)))
                then 1 else 0) := by
  obtain ⟨tl, heq, hpt⟩ := updateLoop_spec env updateCommands [] s hfnf
  have htlz : countE p tl = 0 :=
    countE_eq_zero _ _ fun e he => p_false_of_nonsend hinfo hwarn herr hrun (hpt e he)
  have hdz : ∀ s2 : St, countE p (dist_upgrade_check env s2).2.events = countE p s2.events := by
    intro s2
    rw [dist_check_countE env s2 p hinfo hwarn herr hrun]
    cases env.exec distUpgradeCmd <;> simp [hdist]
  unfold auto_update
  rw [heq]
  by_cases hperf : (updateCommands.filter fun c => (env.exec c).isSuccess).map joinSpace = []
  · simp only [List.nil_append, hperf]
    simp [hdz, countE_append, htlz]
  · simp only [List.nil_append]
    rw [send_email_eq]
    cases hsm : env.smtp (⟨s.events ++ tl, s.smtpCalls⟩ : St).smtpCalls with
    | ok =>
        simp only [hperf, if_false, ite_not]
        simp [hdz, countE_append, countE_cons, countE_nil, htlz, hinfo, hperf]
    | smtpException m =>
        simp [hdz, countE_append, countE_cons, countE_nil, htlz, herr, hperf, hsm]
    | otherError m =>
        simp [hdz, countE_append, countE_cons, countE_nil, htlz, hperf, hsm]

end PostfixInstall

/-! ## Claim theorems -/

namespace PostfixInstall

theorem subj_beq_false (a b : String) (hne : a.length ≠ b.length) (h : String) :
    ((a ++ h) == (b ++ h)) = false :=
  beq_eq_false_iff_ne.mpr (append_ne_append hne h)

end PostfixInstall

open PostfixInstall in
/-- C1: over the fixed four-command sequence (with every executable present,
so the loop completes), `auto_update`'s performed-list is exactly the
joined labels of the commands whose `run_command` result was success, in
the original order, with no duplicates and no failed-command label; the
summary notification is invoked exactly once — listing exactly those
labels, one per line — when the list is non-empty, and zero times when it
is empty. -/
theorem C1_performed_list_and_summary (env : FullEnv)
    (hfnf : ∀ c ∈ updateCommands, env.exec c ≠ ExecResult.fileNotFound) :
    (∃ s', updateLoop env updateCommands [] St.init = (Except.ok (specPerformed env), s'))
  ∧ specPerformed env = (updateCommands.filter fun c => (env.exec c).isSuccess).map joinSpace
  ∧ (specPerformed env).Nodup
  ∧ countSendSB (summarySubj env.hostName) (summaryBody env.hostName (specPerformed env))
      (auto_update env St.init).2.events = (if specPerformed env = [] then 0 else 1)
  ∧ countSend (summarySubj env.hostName) (auto_update env St.init).2.events
      = (if specPerformed env = [] then 0 else 1) := by
  obtain ⟨tl, heq, _⟩ := updateLoop_spec env updateCommands [] St.init hfnf
  refine ⟨⟨⟨St.init.events ++ tl, St.init.smtpCalls⟩, by rw [heq]; simp [specPerformed]⟩,
    rfl, ?_, ?_, ?_⟩
  · have hsub : List.Sublist (specPerformed env) (updateCommands.map joinSpace) :=
      List.Sublist.map _ (List.filter_sublist _)
    exact List.Nodup.sublist hsub (by decide)
  · have hb : ((distSubj env.hostName) == (summarySubj env.hostName)) = false := by
      simpa [distSubj, summarySubj] using
        subj_beq_false "Distribution Upgrade Available on " "Update Notification from "
          (by decide) env.hostName
    have := auto_update_countE env St.init
      (isSendSB (summarySubj env.hostName) (summaryBody env.hostName (specPerformed env)))
      hfnf (fun m => rfl) (fun m => rfl) (fun m => rfl) (fun c => rfl)
      (fun b => by simp [isSendSB, hb])
    simpa [countSendSB, specPerformed, isSendSB, St.init, countE_nil] using this
  · have hb : ((distSubj env.hostName) == (summarySubj env.hostName)) = false := by
      simpa [distSubj, summarySubj] using
        subj_beq_false "Distribution Upgrade Available on " "Update Notification from "
          (by decide) env.hostName
    have := auto_update_countE env St.init (isSendSubj (summarySubj env.hostName))
      hfnf (fun m => rfl) (fun m => rfl) (fun m => rfl) (fun c => rfl)
      (fun b => by simp [isSendSubj, hb])
    simpa [countSend, specPerformed, isSendSubj, St.init, countE_nil] using this

open PostfixInstall in
/-- Witness for C1: the environment in which `apt-get -y upgrade` exits
non-zero and the other three commands succeed. -/
theorem C1_performed_list_and_summary_witness :
    ((∀ c ∈ updateCommands, envUpgradeFails.exec c ≠ ExecResult.fileNotFound)
  ∧ ((∃ s', updateLoop envUpgradeFails updateCommands [] St.init
        = (Except.ok (specPerformed envUpgradeFails), s'))
    ∧ specPerformed envUpgradeFails
        = (updateCommands.filter fun c => (envUpgradeFails.exec c).isSuccess).map joinSpace
    ∧ (specPerformed envUpgradeFails).Nodup
    ∧ countSendSB (summarySubj envUpgradeFails.hostName)
        (summaryBody envUpgradeFails.hostName (specPerformed envUpgradeFails))
        (auto_update envUpgradeFails St.init).2.events
        = (if specPerformed envUpgradeFails = [] then 0 else 1)
    ∧ countSend (summarySubj envUpgradeFails.hostName)
        (auto_update envUpgradeFails St.init).2.events
        = (if specPerformed envUpgradeFails = [] then 0 else 1))) :=
  ⟨by decide, C1_performed_list_and_summary envUpgradeFails (by decide)⟩

open PostfixInstall in
/-- C2 evidence: with the reboot marker present and `sudo reboot` exiting
with status 1, `run_command` swallows the `CalledProcessError` and returns
`None`, so the `except` branch of `auto_restart` never fires: only the one
"Reboot Required" notification is sent, no escalation notification is
sent, and nothing is logged at critical severity (the failure is logged at
error severity inside `run_command`). -/
theorem C2_reboot_nonzero_exit_evidence :
    (auto_restart envRebootFail St.init).1 = Except.ok ()
  ∧ countE isSend (auto_restart envRebootFail St.init).2.events = 1
  ∧ countSend (rebootFailedSubj "host1") (auto_restart envRebootFail St.init).2.events = 0
  ∧ countE isCritical (auto_restart envRebootFail St.init).2.events = 0
  ∧ countRun ["sudo", "reboot"] (auto_restart envRebootFail St.init).2.events = 1 :=
  ⟨rfl, rfl, rfl, rfl, rfl⟩

open PostfixInstall in
/-- C3 counterexample: when the executable is missing, `run_command` of
`postfix_install.py` does not return a failed outcome — the
`FileNotFoundError` propagates out of the Runner. -/
theorem C3_counterexample :
    (run_command envMissingExec ["sudo", "apt-get", "-y", "update"] St.init).1
      = Except.error (Exc.fileNotFound ["sudo", "apt-get", "-y", "update"]) := rfl

open PostfixInstall in
/-- C3 amended: a non-zero exit status (CalledProcessError) is caught and
returned as the failed outcome `none`, but an inability to locate the
executable (FileNotFoundError) is not caught: it propagates out of
`run_command` as an exception. The two failure classes are not treated
identically by the Runner. -/
theorem C3_runner_failure_amended (env : FullEnv) (c : List String) (s : St) :
    (run_command env c s).1 =
      match env.exec c with
      | .success out _ => Except.ok (some (strip out))
      | .calledProcessError _ _ => Except.ok none
      | .fileNotFound => Except.error (Exc.fileNotFound c) :=
  run_command_fst env c s

open PostfixInstall in
/-- C4 counterexample: a transport failure that is not an
`smtplib.SMTPException` (a refused TCP connection) escapes `send_email`,
and with the reboot marker present it aborts `auto_restart` before the
reboot command is ever attempted -- the Notifier failure does alter the
Reboot Coordinator's control flow. -/
theorem C4_counterexample :
    (send_email envConnRefused "subject" "body" St.init).1
      = Except.error (Exc.otherError "connection refused")
  ∧ envConnRefused.rebootRequired = true
  ∧ countRun ["sudo", "reboot"] (auto_restart envConnRefused St.init).2.events = 0 :=
  ⟨rfl, rfl, rfl⟩

open PostfixInstall in
/-- C4 amended: failures of class `smtplib.SMTPException` are caught inside
`send_email`, logged at error severity and swallowed (the call returns
normally), and such a failing notification does not alter the Reboot
Coordinator's control flow: with the marker present the reboot command is
still attempted exactly once more. Only non-`SMTPException` transport
errors (e.g. a refused connection) escape. -/
theorem C4_notifier_swallow_amended (env : FullEnv) (subj body m : String) (s : St)
    (h : env.smtp s.smtpCalls = SmtpResult.smtpException m) :
    (send_email env subj body s).1 = Except.ok ()
  ∧ (send_email env subj body s).2.events
      = s.events ++ [Event.sendEmail subj body,
                     Event.logError ("Failed to send email: " ++ m)]
  ∧ (env.rebootRequired = true →
       countRun ["sudo", "reboot"] (auto_restart env s).2.events
         = countRun ["sudo", "reboot"] s.events + 1) := by
  refine ⟨by simp [send_email_eq, h], by simp [send_email_eq, h], ?_⟩
  intro hr
  cases hexec : env.exec ["sudo", "reboot"] with
  | success out err =>
      by_cases herr : err = "" <;>
        simp [auto_restart, hr, send_email, run_command, St.log, h, hexec, herr,
              countRun, countE_append, countE_cons, countE_nil, isRunCmd]
  | calledProcessError rc err =>
      simp [auto_restart, hr, send_email, run_command, St.log, h, hexec,
            countRun, countE_append, countE_cons, countE_nil, isRunCmd]
  | fileNotFound =>
      cases hsm2 : env.smtp (s.smtpCalls + 1) <;>
        simp [auto_restart, hr, send_email, run_command, St.log, h, hexec, hsm2,
              countRun, countE_append, countE_cons, countE_nil, isRunCmd]

open PostfixInstall in
/-- Witness for C4 amended: reboot marker present, every SMTP session
failing with an `SMTPException`. -/
theorem C4_notifier_swallow_amended_witness :
    (envSmtpDownReboot.smtp St.init.smtpCalls = SmtpResult.smtpException "server down")
  ∧ ((send_email envSmtpDownReboot "subject" "body" St.init).1 = Except.ok ()
  ∧ (send_email envSmtpDownReboot "subject" "body" St.init).2.events
      = St.init.events ++ [Event.sendEmail "subject" "body",
                           Event.logError ("Failed to send email: " ++ "server down")]
  ∧ (envSmtpDownReboot.rebootRequired = true →
       countRun ["sudo", "reboot"] (auto_restart envSmtpDownReboot St.init).2.events
         = countRun ["sudo", "reboot"] St.init.events + 1)) :=
  ⟨rfl, C4_notifier_swallow_amended envSmtpDownReboot "subject" "body" "server down"
    St.init rfl⟩

open PostfixInstall in
/-- C5: in the dist-upgrade check, when the simulated command succeeds, the
presence of the fixed marker string in its (stripped) output triggers
exactly one additional notification, containing the raw simulated-upgrade
output; absence of the marker triggers zero additional notifications and
an informational log record. -/
theorem C5_dist_upgrade_marker (env : FullEnv) (s : St) (out err : String)
    (hexec : env.exec distUpgradeCmd = ExecResult.success out err) :
    (strContains (strip out) upgradeMarker = true →
       countE isSend (dist_upgrade_check env s).2.events = countE isSend s.events + 1
     ∧ countSendSB (distSubj env.hostName) (distBody env.hostName (strip out))
         (dist_upgrade_check env s).2.events
         = countSendSB (distSubj env.hostName) (distBody env.hostName (strip out)) s.events + 1)
  ∧ (strContains (strip out) upgradeMarker = false →
       countE isSend (dist_upgrade_check env s).2.events = countE isSend s.events
     ∧ Event.logInfo "No distribution upgrades available."
         ∈ (dist_upgrade_check env s).2.events) := by
  constructor
  · intro hm
    constructor
    · have := dist_check_countE env s isSend
        (fun m => rfl) (fun m => rfl) (fun m => rfl) (fun c => rfl)
      rw [hexec] at this
      simpa [hm, isSend] using this
    · have := dist_check_countE env s
        (isSendSB (distSubj env.hostName) (distBody env.hostName (strip out)))
        (fun m => rfl) (fun m => rfl) (fun m => rfl) (fun c => rfl)
      rw [hexec] at this
      simpa [hm, isSendSB, countSendSB] using this
  · intro hm
    refine ⟨?_, dist_check_no_marker_log env s out err hexec hm⟩
    have := dist_check_countE env s isSend
      (fun m => rfl) (fun m => rfl) (fun m => rfl) (fun c => rfl)
    rw [hexec] at this
    simpa [hm] using this

open PostfixInstall in
/-- Witness for C5: the simulated dist-upgrade output contains the marker. -/
theorem C5_dist_upgrade_marker_witness :
    (envDistUpgrade.exec distUpgradeCmd
       = ExecResult.success " The following packages will be upgraded:\n  pkg" "")
  ∧ strContains (strip " The following packages will be upgraded:\n  pkg") upgradeMarker = true
  ∧ ((strContains (strip " The following packages will be upgraded:\n  pkg") upgradeMarker = true →
       countE isSend (dist_upgrade_check envDistUpgrade St.init).2.events
         = countE isSend St.init.events + 1
     ∧ countSendSB (distSubj envDistUpgrade.hostName)
         (distBody envDistUpgrade.hostName (strip " The following packages will be upgraded:\n  pkg"))
         (dist_upgrade_check envDistUpgrade St.init).2.events
         = countSendSB (distSubj envDistUpgrade.hostName)
             (distBody envDistUpgrade.hostName
               (strip " The following packages will be upgraded:\n  pkg"))
             St.init.events + 1)
  ∧ (strContains (strip " The following packages will be upgraded:\n  pkg") upgradeMarker = false →
       countE isSend (dist_upgrade_check envDistUpgrade St.init).2.events
         = countE isSend St.init.events
     ∧ Event.logInfo "No distribution upgrades available."
         ∈ (dist_upgrade_check envDistUpgrade St.init).2.events)) :=
  ⟨rfl, by decide,
   C5_dist_upgrade_marker envDistUpgrade St.init
     " The following packages will be upgraded:\n  pkg" "" rfl⟩

open PostfixInstall in
/-- C6: with the reboot marker present (and the rebooting notification not
raising a non-SMTPException error, which C4 shows would abort the
coordinator), exactly one reboot command is attempted and exactly one
"Reboot Required" notification is invoked, the notification strictly
before the reboot attempt; with the marker absent, zero commands are
attempted and exactly one notification — the "Update Complete" one — is
invoked. -/
theorem C6_reboot_coordinator (env : FullEnv)
    (hns : ∀ m, env.smtp 0 ≠ SmtpResult.otherError m) :
    (env.rebootRequired = true →
       countRun ["sudo", "reboot"] (auto_restart env St.init).2.events = 1
     ∧ countE isRun (auto_restart env St.init).2.events = 1
     ∧ countSend (rebootSubj env.hostName) (auto_restart env St.init).2.events = 1
     ∧ ∃ i j, i < j
         ∧ (auto_restart env St.init).2.events.get? i
             = some (Event.sendEmail (rebootSubj env.hostName) (rebootBody env.hostName))
         ∧ (auto_restart env St.init).2.events.get? j
             = some (Event.commandRun ["sudo", "reboot"]))
  ∧ (env.rebootRequired = false →
       countE isRun (auto_restart env St.init).2.events = 0
     ∧ countSend (noRebootSubj env.hostName) (auto_restart env St.init).2.events = 1
     ∧ countE isSend (auto_restart env St.init).2.events = 1) := by
  have hb2 : ((rebootFailedSubj env.hostName) == (rebootSubj env.hostName)) = false := by
    simpa [rebootFailedSubj, rebootSubj] using
      subj_beq_false "Reboot Failed on " "Reboot Required for " (by decide) env.hostName
  constructor
  · intro hr
    cases hsm : env.smtp 0 with
    | otherError m => exact absurd hsm (hns m)
    | ok =>
        cases hexec : env.exec ["sudo", "reboot"] with
        | success out err =>
            by_cases herr : err = "" <;>
              refine ⟨?_, ?_, ?_, 0, 3, by omega, ?_, ?_⟩ <;>
              simp [auto_restart, hr, send_email, run_command, St.log, St.init, hsm, hexec,
                    herr, countRun, countSend, countE_cons, countE_nil, countE_append,
                    isRunCmd, isSendSubj, isRun, isSend, hb2]
        | calledProcessError rc err =>
            refine ⟨?_, ?_, ?_, 0, 3, by omega, ?_, ?_⟩ <;>
              simp [auto_restart, hr, send_email, run_command, St.log, St.init, hsm, hexec,
                    countRun, countSend, countE_cons, countE_nil, countE_append,
                    isRunCmd, isSendSubj, isRun, isSend, hb2]
        | fileNotFound =>
            cases hsm2 : env.smtp 1 <;>
              refine ⟨?_, ?_, ?_, 0, 3, by omega, ?_, ?_⟩ <;>
              simp [auto_restart, hr, send_email, run_command, St.log, St.init, hsm, hexec,
                    hsm2, countRun, countSend, countE_cons, countE_nil, countE_append,
                    isRunCmd, isSendSubj, isRun, isSend, isCritical, hb2, Exc.message]
    | smtpException m =>
        cases hexec : env.exec ["sudo", "reboot"] with
        | success out err =>
            by_cases herr : err = "" <;>
              refine ⟨?_, ?_, ?_, 0, 3, by omega, ?_, ?_⟩ <;>
              simp [auto_restart, hr, send_email, run_command, St.log, St.init, hsm, hexec,
                    herr, countRun, countSend, countE_cons, countE_nil, countE_append,
                    isRunCmd, isSendSubj, isRun, isSend, hb2]
        | calledProcessError rc err =>
            refine ⟨?_, ?_, ?_, 0, 3, by omega, ?_, ?_⟩ <;>
              simp [auto_restart, hr, send_email, run_command, St.log, St.init, hsm, hexec,
                    countRun, countSend, countE_cons, countE_nil, countE_append,
                    isRunCmd, isSendSubj, isRun, isSend, hb2]
        | fileNotFound =>
            cases hsm2 : env.smtp 1 <;>
              refine ⟨?_, ?_, ?_, 0, 3, by omega, ?_, ?_⟩ <;>
              simp [auto_restart, hr, send_email, run_command, St.log, St.init, hsm, hexec,
                    hsm2, countRun, countSend, countE_cons, countE_nil, countE_append,
                    isRunCmd, isSendSubj, isRun, isSend, isCritical, hb2, Exc.message]
  · intro hr
    cases hsm : env.smtp 0 with
    | otherError m => exact absurd hsm (hns m)
    | ok =>
        refine ⟨?_, ?_, ?_⟩ <;>
          simp [auto_restart, hr, send_email, St.log, St.init, hsm,
                countSend, countE_cons, countE_nil, countE_append,
                isSendSubj, isRun, isSend]
    | smtpException m =>
        refine ⟨?_, ?_, ?_⟩ <;>
          simp [auto_restart, hr, send_email, St.log, St.init, hsm,
                countSend, countE_cons, countE_nil, countE_append,
                isSendSubj, isRun, isSend]

open PostfixInstall in
/-- Witness for C6: marker present, all SMTP sessions succeed, reboot
command succeeds. -/
theorem C6_reboot_coordinator_witness :
    (∀ m, envRebootOk.smtp 0 ≠ SmtpResult.otherError m)
  ∧ ((envRebootOk.rebootRequired = true →
       countRun ["sudo", "reboot"] (auto_restart envRebootOk St.init).2.events = 1
     ∧ countE isRun (auto_restart envRebootOk St.init).2.events = 1
     ∧ countSend (rebootSubj envRebootOk.hostName) (auto_restart envRebootOk St.init).2.events = 1
     ∧ ∃ i j, i < j
         ∧ (auto_restart envRebootOk St.init).2.events.get? i
             = some (Event.sendEmail (rebootSubj envRebootOk.hostName)
                       (rebootBody envRebootOk.hostName))
         ∧ (auto_restart envRebootOk St.init).2.events.get? j
             = some (Event.commandRun ["sudo", "reboot"]))
  ∧ (envRebootOk.rebootRequired = false →
       countE isRun (auto_restart envRebootOk St.init).2.events = 0
     ∧ countSend (noRebootSubj envRebootOk.hostName) (auto_restart envRebootOk St.init).2.events = 1
     ∧ countE isSend (auto_restart envRebootOk St.init).2.events = 1)) :=
  ⟨fun m h => by simp [envRebootOk, envAllOk] at h,
   C6_reboot_coordinator envRebootOk (fun m h => by simp [envRebootOk, envAllOk] at h)⟩

open PostfixInstall in
/-- C7: if the reachability probe fails, the failure propagates to the
top-level handler (which logs at critical severity), and no command of the
maintenance sequence — indeed no `subprocess.run` at all — is invoked in
that run. -/
theorem C7_probe_failure_blocks_commands (env : FullEnv)
    (h : env.smtp 0 ≠ SmtpResult.ok) :
    countE isRun (main env St.init).2.events = 0
  ∧ 1 ≤ countE isCritical (main env St.init).2.events := by
  cases hsm : env.smtp 0 with
  | ok => exact absurd hsm h
  | smtpException m =>
      cases hsm2 : env.smtp 1 <;>
        constructor <;>
        simp [main, mainBody, test_smtp_connection, topHandler, send_email, St.log, St.init,
              hsm, hsm2, countE_cons, countE_nil, countE_append, isRun, isCritical]
  | otherError m =>
      cases hsm2 : env.smtp 1 <;>
        constructor <;>
        simp [main, mainBody, test_smtp_connection, topHandler, send_email, St.log, St.init,
              hsm, hsm2, countE_cons, countE_nil, countE_append, isRun, isCritical]

open PostfixInstall in
/-- Witness for C7: the probe's SMTP session raises an `SMTPException`. -/
theorem C7_probe_failure_blocks_commands_witness :
    (envSmtpDown.smtp 0 ≠ SmtpResult.ok)
  ∧ countE isRun (main envSmtpDown St.init).2.events = 0
  ∧ 1 ≤ countE isCritical (main envSmtpDown St.init).2.events :=
  ⟨by decide, C7_probe_failure_blocks_commands envSmtpDown (by decide)⟩

namespace PostfixInstall

theorem updateLoop_extends (env : FullEnv) (cs : List (List String)) :
    ∀ (acc : List String) (s : St),
      ∃ tl, (updateLoop env cs acc s).2.events = s.events ++ tl := by
  induction cs with
  | nil => intro acc s; exact ⟨[], by simp [updateLoop]⟩
  | cons c rest ih =>
      intro acc s
      obtain ⟨A, hA, _⟩ := run_command_trace env c s
      have hfst := run_command_fst env c s
      have hsplit : run_command env c s = ((run_command env c s).1, (run_command env c s).2) :=
        rfl
      cases hcc : env.exec c with
      | success out err =>
          rw [hcc] at hfst
          obtain ⟨tl, htl⟩ := ih (acc ++ [joinSpace c])
            ⟨s.events ++ Event.commandRun c :: A, s.smtpCalls⟩
          refine ⟨Event.commandRun c :: (A ++ tl), ?_⟩
          have key : updateLoop env (c :: rest) acc s
              = updateLoop env rest (acc ++ [joinSpace c])
                  ⟨s.events ++ Event.commandRun c :: A, s.smtpCalls⟩ := by
            conv_lhs => rw [updateLoop, hsplit, hfst, hA]
            all_goals exact rfl
          rw [key, htl]
          simp [List.append_assoc]
      | calledProcessError rc err =>
          rw [hcc] at hfst
          obtain ⟨tl, htl⟩ := ih acc
            ⟨(s.events ++ Event.commandRun c :: A)
               ++ [Event.logError ("Failed to run " ++ joinSpace c ++ " on " ++ env.hostName)],
             s.smtpCalls⟩
          refine ⟨Event.commandRun c
              :: (A ++ [Event.logError ("Failed to run " ++ joinSpace c ++ " on " ++ env.hostName)]
                    ++ tl), ?_⟩
          have key : updateLoop env (c :: rest) acc s
              = updateLoop env rest acc
                  ⟨(s.events ++ Event.commandRun c :: A)
                     ++ [Event.logError ("Failed to run " ++ joinSpace c ++ " on "
                          ++ env.hostName)],
                   s.smtpCalls⟩ := by
            conv_lhs => rw [updateLoop, hsplit, hfst, hA]
            all_goals exact rfl
          rw [key, htl]
          simp [List.append_assoc]
      | fileNotFound =>
          rw [hcc] at hfst
          refine ⟨Event.commandRun c :: A, ?_⟩
          have key : updateLoop env (c :: rest) acc s
              = (Except.error (Exc.fileNotFound c),
                 ⟨s.events ++ Event.commandRun c :: A, s.smtpCalls⟩) := by
            conv_lhs => rw [updateLoop, hsplit, hfst, hA]
            all_goals exact rfl
          rw [key]

theorem updateLoop_head (env : FullEnv) (c : List String) (rest : List (List String))
    (acc : List String) (s : St) :
    ∃ tl, (updateLoop env (c :: rest) acc s).2.events
      = s.events ++ Event.commandRun c :: tl := by
  obtain ⟨A, hA, _⟩ := run_command_trace env c s
  have hfst := run_command_fst env c s
  have hsplit : run_command env c s = ((run_command env c s).1, (run_command env c s).2) := rfl
  cases hcc : env.exec c with
  | success out err =>
      rw [hcc] at hfst
      obtain ⟨tl, htl⟩ := updateLoop_extends env rest (acc ++ [joinSpace c])
        ⟨s.events ++ Event.commandRun c :: A, s.smtpCalls⟩
      refine ⟨A ++ tl, ?_⟩
      have key : updateLoop env (c :: rest) acc s
          = updateLoop env rest (acc ++ [joinSpace c])
              ⟨s.events ++ Event.commandRun c :: A, s.smtpCalls⟩ := by
        conv_lhs => rw [updateLoop, hsplit, hfst, hA]
        all_goals exact rfl
      rw [key, htl]
      simp [List.append_assoc]
  | calledProcessError rc err =>
      rw [hcc] at hfst
      obtain ⟨tl, htl⟩ := updateLoop_extends env rest acc
        ⟨(s.events ++ Event.commandRun c :: A)
           ++ [Event.logError ("Failed to run " ++ joinSpace c ++ " on " ++ env.hostName)],
         s.smtpCalls⟩
      refine ⟨A ++ [Event.logError ("Failed to run " ++ joinSpace c ++ " on " ++ env.hostName)]
          ++ tl, ?_⟩
      have key : updateLoop env (c :: rest) acc s
          = updateLoop env rest acc
              ⟨(s.events ++ Event.commandRun c :: A)
                 ++ [Event.logError ("Failed to run " ++ joinSpace c ++ " on " ++ env.hostName)],
               s.smtpCalls⟩ := by
        conv_lhs => rw [updateLoop, hsplit, hfst, hA]
        all_goals exact rfl
      rw [key, htl]
      simp [List.append_assoc]
  | fileNotFound =>
      rw [hcc] at hfst
      refine ⟨A, ?_⟩
      have key : updateLoop env (c :: rest) acc s
          = (Except.error (Exc.fileNotFound c),
             ⟨s.events ++ Event.commandRun c :: A, s.smtpCalls⟩) := by
        conv_lhs => rw [updateLoop, hsplit, hfst, hA]
        all_goals exact rfl
      rw [key]

theorem dist_check_extends (env : FullEnv) (s : St) :
    ∃ tl, (dist_upgrade_check env s).2.events = s.events ++ tl := by
  obtain ⟨A, hA, _⟩ := run_command_trace env distUpgradeCmd s
  have hfst := run_command_fst env distUpgradeCmd s
  have hsplit : run_command env distUpgradeCmd s
      = ((run_command env distUpgradeCmd s).1, (run_command env distUpgradeCmd s).2) := rfl
  unfold dist_upgrade_check
  rw [hsplit, hfst, hA]
  cases hcc : env.exec distUpgradeCmd with
  | success out err =>
      simp only [marker_cond]
      cases hm : strContains (strip out) upgradeMarker with
      | true =>
          simp only [if_true]
          obtain ⟨B, hB, _⟩ := send_email_trace env (distSubj env.hostName)
            (distBody env.hostName ((some (strip out)).getD ""))
            ⟨s.events ++ Event.commandRun distUpgradeCmd :: A, s.smtpCalls⟩
          rw [hB]
          exact ⟨Event.commandRun distUpgradeCmd :: A
              ++ Event.sendEmail (distSubj env.hostName)
                   (distBody env.hostName ((some (strip out)).getD "")) :: B,
            by simp [List.append_assoc]⟩
      | false =>
          exact ⟨Event.commandRun distUpgradeCmd :: A
              ++ [Event.logInfo "No distribution upgrades available."],
            by simp [St.log, List.append_assoc]⟩
  | calledProcessError rc err =>
      exact ⟨Event.commandRun distUpgradeCmd :: A
          ++ [Event.logInfo "No distribution upgrades available."],
        by simp [St.log, truthy, List.append_assoc]⟩
  | fileNotFound =>
      exact ⟨Event.commandRun distUpgradeCmd :: A, by simp⟩

theorem auto_update_head (env : FullEnv) (s : St) :
    ∃ tl, (auto_update env s).2.events
      = s.events ++ Event.commandRun ["sudo", "apt-get", "-y", "update"] :: tl := by
  obtain ⟨tlh, hh⟩ := updateLoop_head env ["sudo", "apt-get", "-y", "update"]
    [["sudo", "apt-get", "-y", "upgrade"],
     ["sudo", "apt-get", "-y", "autoremove"],
     ["sudo", "apt-get", "-y", "autoclean"]] [] s
  rcases hX : updateLoop env updateCommands [] s with ⟨r, st⟩
  have hst : st.events = s.events ++ Event.commandRun ["sudo", "apt-get", "-y", "update"] :: tlh := by
    have : (updateLoop env updateCommands [] s).2.events
        = s.events ++ Event.commandRun ["sudo", "apt-get", "-y", "update"] :: tlh := hh
    rwa [hX] at this
  unfold auto_update
  rw [hX]
  cases r with
  | error e => exact ⟨tlh, hst⟩
  | ok performed =>
      by_cases hp : performed = []
      · simp only [hp, ne_eq, not_true_eq_false, if_false]
        obtain ⟨tld, htld⟩ := dist_check_extends env st
        rw [htld, hst]
        exact ⟨tlh ++ tld, by simp [List.append_assoc]⟩
      · simp only [ne_eq, hp, not_false_eq_true, if_true]
        obtain ⟨B, hB, _⟩ := send_email_trace env (summarySubj env.hostName)
          (summaryBody env.hostName performed) st
        have hsplitS : send_email env (summarySubj env.hostName)
              (summaryBody env.hostName performed) st
            = ((send_email env (summarySubj env.hostName)
                  (summaryBody env.hostName performed) st).1,
               (send_email env (summarySubj env.hostName)
                  (summaryBody env.hostName performed) st).2) := rfl
        rw [hsplitS, hB]
        cases hr1 : (send_email env (summarySubj env.hostName)
            (summaryBody env.hostName performed) st).1 with
        | error e =>
            refine ⟨tlh ++ Event.sendEmail (summarySubj env.hostName)
                (summaryBody env.hostName performed) :: B, ?_⟩
            simp [hst, List.append_assoc]
        | ok u =>
            obtain ⟨tld, htld⟩ := dist_check_extends env
              ⟨st.events ++ Event.sendEmail (summarySubj env.hostName)
                  (summaryBody env.hostName performed) :: B, st.smtpCalls + 1⟩
            rw [htld]
            refine ⟨tlh ++ Event.sendEmail (summarySubj env.hostName)
                (summaryBody env.hostName performed) :: B ++ tld, ?_⟩
            simp [hst, List.append_assoc]

end PostfixInstall

open PostfixInstall in
/-- C8 counterexample: with every one of the four keys absent from the
environment, the configuration loads with fallback defaults (empty
password, `default@domain.com` addresses), nothing detects the
misconfiguration, and the maintenance workflow proceeds: the whole run
completes with exit status 0 and the first maintenance command is
invoked. -/
theorem C8_counterexample :
    cfgAllAbsent = loadConfig (fun _ => none)
  ∧ cfgAllAbsent.emailPassword = ""
  ∧ cfgAllAbsent.fromEmail = "default@domain.com"
  ∧ envAllOk.cfg = cfgAllAbsent
  ∧ (main envAllOk St.init).1 = 0
  ∧ countRun ["sudo", "apt-get", "-y", "update"] (main envAllOk St.init).2.events = 1 :=
  ⟨rfl, rfl, rfl, rfl, rfl, rfl⟩

open PostfixInstall in
/-- C8 amended: absence of any of the four keys is NOT fatal — each key
falls back to its hard-coded default (`default@domain.com`,
`default@domain.com`, `localhost`, `""`), no component checks the fields
for emptiness, and the Orchestrator invokes the first maintenance command
regardless of the configuration contents. -/
theorem C8_config_defaults_amended (env : FullEnv) (environ : String → Option String)
    (hcfg : env.cfg = loadConfig environ) (habsent : ∀ k, environ k = none) :
    env.cfg.fromEmail = "default@domain.com"
  ∧ env.cfg.toEmail = "default@domain.com"
  ∧ env.cfg.smtpServer = "localhost"
  ∧ env.cfg.emailPassword = ""
  ∧ ∃ tl, (auto_update env St.init).2.events
      = Event.commandRun ["sudo", "apt-get", "-y", "update"] :: tl := by
  refine ⟨by simp [hcfg, loadConfig, getenv, habsent],
    by simp [hcfg, loadConfig, getenv, habsent],
    by simp [hcfg, loadConfig, getenv, habsent],
    by simp [hcfg, loadConfig, getenv, habsent], ?_⟩
  obtain ⟨tl, htl⟩ := auto_update_head env St.init
  exact ⟨tl, by simpa [St.init] using htl⟩

open PostfixInstall in
/-- Witness for C8 amended: the baseline environment, whose configuration
was loaded from an environment with every key absent. -/
theorem C8_config_defaults_amended_witness :
    (envAllOk.cfg = loadConfig fun _ => none)
  ∧ (∀ k : String, (fun _ : String => (none : Option String)) k = none)
  ∧ (envAllOk.cfg.fromEmail = "default@domain.com"
  ∧ envAllOk.cfg.toEmail = "default@domain.com"
  ∧ envAllOk.cfg.smtpServer = "localhost"
  ∧ envAllOk.cfg.emailPassword = ""
  ∧ ∃ tl, (auto_update envAllOk St.init).2.events
      = Event.commandRun ["sudo", "apt-get", "-y", "update"] :: tl) :=
  ⟨rfl, fun k => rfl,
   C8_config_defaults_amended envAllOk (fun _ => none) rfl (fun k => rfl)⟩

open PostfixInstall in
/-- C9 counterexample: an uncaught exception (missing executable in the
first maintenance command) reaches the top level; the escalation
notification is sent, but the handler then falls off the end of the
script, so the process terminates with exit status 0 — a success
indication, not a failing one. -/
theorem C9_counterexample :
    (mainBody envMissingExec St.init).1
      = Except.error (Exc.fileNotFound ["sudo", "apt-get", "-y", "update"])
  ∧ (main envMissingExec St.init).1 = 0
  ∧ countSend (errorSubj "host1") (main envMissingExec St.init).2.events = 1 :=
  ⟨rfl, rfl, rfl⟩

open PostfixInstall in
/-- C9 amended: when an unhandled exception reaches the top level, the
best-effort escalation notification is invoked exactly once; the process
then terminates with exit status 0 (the handler neither re-raises nor
sets an exit code) — it ends with a failing status only when the
escalation send itself raises a non-SMTPException error. -/
theorem C9_top_level_amended (env : FullEnv) (e : Exc)
    (h : (mainBody env St.init).1 = Except.error e) :
    (main env St.init).1
      = (match env.smtp (mainBody env St.init).2.smtpCalls with
         | SmtpResult.otherError _ => 1
         | _ => 0)
  ∧ countSend (errorSubj env.hostName) (main env St.init).2.events
      = countSend (errorSubj env.hostName) (mainBody env St.init).2.events + 1 := by
  have hsplit : mainBody env St.init = ((mainBody env St.init).1, (mainBody env St.init).2) :=
    rfl
  unfold main
  rw [hsplit, h]
  cases hsm : env.smtp (mainBody env St.init).2.smtpCalls <;>
    constructor <;>
    simp [topHandler, send_email, St.log, hsm, countSend, countE_append, countE_cons,
          countE_nil, isSendSubj]

open PostfixInstall in
/-- Witness for C9 amended: every executable missing, so the first
maintenance command raises; SMTP always succeeds. -/
theorem C9_top_level_amended_witness :
    ((mainBody envMissingExec St.init).1
       = Except.error (Exc.fileNotFound ["sudo", "apt-get", "-y", "update"]))
  ∧ ((main envMissingExec St.init).1
       = (match envMissingExec.smtp (mainBody envMissingExec St.init).2.smtpCalls with
          | SmtpResult.otherError _ => 1
          | _ => 0)
  ∧ countSend (errorSubj envMissingExec.hostName) (main envMissingExec St.init).2.events
      = countSend (errorSubj envMissingExec.hostName)
          (mainBody envMissingExec St.init).2.events + 1) :=
  ⟨rfl, C9_top_level_amended envMissingExec
    (Exc.fileNotFound ["sudo", "apt-get", "-y", "update"]) rfl⟩

namespace PostfixPurge

open PostfixInstall (ExecResult)

theorem purgeLoop_fail (exec : List String → ExecResult) :
    ∀ (cs : List (List String)) (tr : List (List String)) (i : Nat) (hi : i < cs.length),
      (∀ c ∈ cs.take i, (exec ("sudo" :: c)).isSuccess = true) →
      (exec ("sudo" :: cs.get ⟨i, hi⟩)).isSuccess = false →
      purgeLoop exec cs tr
        = (Except.error 1, tr ++ (cs.take (i + 1)).map (fun c => "sudo" :: c)) := by
  intro cs
  induction cs with
  | nil => intro tr i hi; exact absurd hi (by simp)
  | cons c rest ih =>
      intro tr i hi hpre hfail
      cases i with
      | zero =>
          have hf : (exec ("sudo" :: c)).isSuccess = false := hfail
          cases hx : exec ("sudo" :: c) with
          | success o e =>
              rw [hx] at hf
              exact absurd hf (by simp [ExecResult.isSuccess])
          | calledProcessError rc err =>
              simp [purgeLoop, run_command, hx, List.take]
          | fileNotFound =>
              simp [purgeLoop, run_command, hx, List.take]
      | succ n =>
          have hh : (exec ("sudo" :: c)).isSuccess = true :=
            hpre c (by simp [List.take])
          cases hx : exec ("sudo" :: c) with
          | success o e =>
              have hrec := ih (tr ++ [["sudo"] ++ c]) n (by simpa using hi)
                (fun d hd => hpre d (by simp [List.take, hd]))
                hfail
              simp only [List.singleton_append] at hrec
              simp [purgeLoop, run_command, hx, hrec, List.take, List.append_assoc,
                    List.map_take]
          | calledProcessError rc err =>
              rw [hx] at hh
              exact absurd hh (by simp [ExecResult.isSuccess])
          | fileNotFound =>
              rw [hx] at hh
              exact absurd hh (by simp [ExecResult.isSuccess])

end PostfixPurge

open PostfixPurge in
/-- C10: in the purge script's runner, any command failure — non-zero exit
or missing executable — terminates the whole process with exit status 1,
so when the (i+1)-st purge command fails, exactly the first i+1
(sudo-prefixed) commands have been attempted and none of the later ones
ever runs; the install script's runner instead returns a failed outcome
(`None`) on a non-zero exit and lets execution continue. -/
theorem C10_purge_runner_exits (exec : List String → PostfixInstall.ExecResult)
    (i : Nat) (hi : i < PostfixPurge.purgeCommands.length)
    (hpre : ∀ c ∈ PostfixPurge.purgeCommands.take i, (exec ("sudo" :: c)).isSuccess = true)
    (hfail : (exec ("sudo" :: PostfixPurge.purgeCommands.get ⟨i, hi⟩)).isSuccess = false) :
    PostfixPurge.purge_postfix exec
      = (Except.error 1, (PostfixPurge.purgeCommands.take (i + 1)).map (fun c => "sudo" :: c))
  ∧ ∀ (env : PostfixInstall.FullEnv) (c : List String) (s : PostfixInstall.St)
      (rc : Int) (msg : String),
      env.exec c = PostfixInstall.ExecResult.calledProcessError rc msg →
      (PostfixInstall.run_command env c s).1 = Except.ok none := by
  constructor
  · have := purgeLoop_fail exec PostfixPurge.purgeCommands [] i hi hpre hfail
    simpa [ purge_postfix] using this
  · intro env c s rc msg hcc
    rw [PostfixInstall.run_command_fst, hcc]

open PostfixPurge in
/-- Witness for C10: the fourth purge command (`rm -rf /etc/postfix`) exits
non-zero; the purge stops after four attempts with exit status 1, while
the install runner returns `None` on the analogous failure. -/
theorem C10_purge_runner_exits_witness :
    (3 < PostfixPurge.purgeCommands.length)
  ∧ (∀ c ∈ PostfixPurge.purgeCommands.take 3,
       (execPurgeFail ("sudo" :: c)).isSuccess = true)
  ∧ ((execPurgeFail
        ("sudo" :: PostfixPurge.purgeCommands.get ⟨3, by decide⟩)).isSuccess = false)
  ∧ ( PostfixPurge.purge_postfix execPurgeFail
        = (Except.error 1,
           (PostfixPurge.purgeCommands.take (3 + 1)).map (fun c => "sudo" :: c)))
  ∧ (PostfixInstall.run_command PostfixInstall.envUpgradeFails
       ["sudo", "apt-get", "-y", "upgrade"] PostfixInstall.St.init).1 = Except.ok none :=
  ⟨by decide, by decide, by decide,
   (C10_purge_runner_exits execPurgeFail 3 (by decide) (by decide) (by decide)).1,
   (C10_purge_runner_exits execPurgeFail 3 (by decide) (by decide) (by decide)).2
     PostfixInstall.envUpgradeFails ["sudo", "apt-get", "-y", "upgrade"]
     PostfixInstall.St.init 100 "broken" rfl⟩
